import Mathlib

/-!
Verification of the event reconstruction and selection pipeline in
`DreamAN/DrawHist/DISANAMMUtils.h` (DISANA repository).

The embedding below translates the per-event lambdas of that header into
Lean definitions:

* rest masses `kMe`, `kMp`, `kMK` are the file-scope constants;
* `TLorentzVector` mirrors ROOT's four-vector (stored as px, py, pz, E)
  with component-wise addition and subtraction, and `onShell` is the
  constructor pattern `TLorentzVector(px, py, pz, sqrt(px²+py²+pz²+m²))`
  used throughout the header;
* `kMinus_miss_px`/`..py`/`..pz` are the `Define` lambdas of
  `InitKinematics_MissingKm` (lines 121-142), and `kPlus_miss_*` those of
  `InitKinematics_MissingKp` (lines 203-224);
* particle-array columns are modelled as a `List Particle`, one record per
  index of the parallel arrays `REC_Particle_pid/px/py/pz/pass/...`;
* the first-match selector lambdas (`ele_px`, `pro_px`, `kPlus_px`, ...)
  become `selectPx`/`selectPy`/`selectPz`;
* the event filters `SelectExclusivePhiEvent`, `RejectPi0TwoPhoton`, the
  all-detected filter of `InitKinematics`, the detector-region lambdas and
  `invMass_KpKm` are translated function by function.

Real-number arithmetic stands in for the C++ `float`/`double` arithmetic;
`std::sqrt`, `std::acos`, `std::atan2` are modelled by `Real.sqrt`,
`Real.arccos` and the piecewise `atan2` below.
-/

namespace DISANAMM

/-- Electron rest mass constant `kMe` of the source header (GeV). -/
def kMe : ℝ := 0.000511

/-- Proton rest mass constant `kMp` of the source header (GeV). -/
def kMp : ℝ := 0.938272

/-- Charged-kaon rest mass constant `kMK` of the source header (GeV). -/
def kMK : ℝ := 0.493677

/-- ROOT's `TLorentzVector`, restricted to what the header uses: a
four-vector stored as (px, py, pz, E). -/
structure TLorentzVector where
  px : ℝ
  py : ℝ
  pz : ℝ
  E : ℝ

instance : Add TLorentzVector :=
  ⟨fun a b => ⟨a.px + b.px, a.py + b.py, a.pz + b.pz, a.E + b.E⟩⟩

instance : Sub TLorentzVector :=
  ⟨fun a b => ⟨a.px - b.px, a.py - b.py, a.pz - b.pz, a.E - b.E⟩⟩

@[simp] theorem TLorentzVector.add_px (a b : TLorentzVector) : (a + b).px = a.px + b.px := rfl

@[simp] theorem TLorentzVector.add_py (a b : TLorentzVector) : (a + b).py = a.py + b.py := rfl

@[simp] theorem TLorentzVector.add_pz (a b : TLorentzVector) : (a + b).pz = a.pz + b.pz := rfl

@[simp] theorem TLorentzVector.sub_px (a b : TLorentzVector) : (a - b).px = a.px - b.px := rfl

@[simp] theorem TLorentzVector.sub_py (a b : TLorentzVector) : (a - b).py = a.py - b.py := rfl

@[simp] theorem TLorentzVector.sub_pz (a b : TLorentzVector) : (a - b).pz = a.pz - b.pz := rfl

/-- Detected-particle four-vector as built in the header:
`TLorentzVector(px, py, pz, std::sqrt(px*px + py*py + pz*pz + m*m))`. -/
noncomputable def onShell (px py pz m : ℝ) : TLorentzVector :=
  ⟨px, py, pz, Real.sqrt (px * px + py * py + pz * pz + m * m)⟩

/-- Beam four-vector `TLorentzVector pBeam(0, 0, beam_energy, beam_energy)`. -/
def pBeam (beamE : ℝ) : TLorentzVector := ⟨0, 0, beamE, beamE⟩

/-- Target four-vector `TLorentzVector pTarg(0, 0, 0, kMp)`. -/
def pTarg : TLorentzVector := ⟨0, 0, 0, kMp⟩

/-- The missing K⁻ four-vector `pBeam + pTarg - e - p - kp` of
`InitKinematics_MissingKm`, built from the detected electron, proton and
K⁺ momentum components. -/
noncomputable def kMinusMissLV (beamE epx epy epz ppx ppy ppz kpx kpy kpz : ℝ) :
    TLorentzVector :=
  pBeam beamE + pTarg - onShell epx epy epz kMe - onShell ppx ppy ppz kMp -
    onShell kpx kpy kpz kMK

/-- Column `kMinus_miss_px` of `InitKinematics_MissingKm`. -/
noncomputable def kMinus_miss_px (beamE epx epy epz ppx ppy ppz kpx kpy kpz : ℝ) : ℝ :=
  (kMinusMissLV beamE epx epy epz ppx ppy ppz kpx kpy kpz).px

/-- Column `kMinus_miss_py` of `InitKinematics_MissingKm`. -/
noncomputable def kMinus_miss_py (beamE epx epy epz ppx ppy ppz kpx kpy kpz : ℝ) : ℝ :=
  (kMinusMissLV beamE epx epy epz ppx ppy ppz kpx kpy kpz).py

/-- Column `kMinus_miss_pz` of `InitKinematics_MissingKm`. -/
noncomputable def kMinus_miss_pz (beamE epx epy epz ppx ppy ppz kpx kpy kpz : ℝ) : ℝ :=
  (kMinusMissLV beamE epx epy epz ppx ppy ppz kpx kpy kpz).pz

/-- The missing K⁺ four-vector `pBeam + pTarg - e - p - km` of
`InitKinematics_MissingKp`, built from the detected electron, proton and
K⁻ momentum components. -/
noncomputable def kPlusMissLV (beamE epx epy epz ppx ppy ppz kmx kmy kmz : ℝ) :
    TLorentzVector :=
  pBeam beamE + pTarg - onShell epx epy epz kMe - onShell ppx ppy ppz kMp -
    onShell kmx kmy kmz kMK

/-- Column `kPlus_miss_px` of `InitKinematics_MissingKp`. -/
noncomputable def kPlus_miss_px (beamE epx epy epz ppx ppy ppz kmx kmy kmz : ℝ) : ℝ :=
  (kPlusMissLV beamE epx epy epz ppx ppy ppz kmx kmy kmz).px

/-- Column `kPlus_miss_py` of `InitKinematics_MissingKp`. -/
noncomputable def kPlus_miss_py (beamE epx epy epz ppx ppy ppz kmx kmy kmz : ℝ) : ℝ :=
  (kPlusMissLV beamE epx epy epz ppx ppy ppz kmx kmy kmz).py

/-- Column `kPlus_miss_pz` of `InitKinematics_MissingKp`. -/
noncomputable def kPlus_miss_pz (beamE epx epy epz ppx ppy ppz kmx kmy kmz : ℝ) : ℝ :=
  (kPlusMissLV beamE epx epy epz ppx ppy ppz kmx kmy kmz).pz

/-- C1: the reconstructed missing-K⁻ momentum components are those of
beam + target − electron − proton − K⁺ (with the fixed beam/target
four-vectors and on-shell detected energies), so for every synthetic event
whose electron, proton, K⁺ and a chosen K⁻ three-momenta sum to the
beam + target three-momentum (0, 0, E_beam) — as they do whenever the four
on-shell four-vectors sum exactly to beam + target — the reconstruction
recovers the chosen K⁻ momentum components; symmetrically, the missing-K⁺
reconstruction from the detected K⁻ recovers the chosen K⁺. -/
theorem missing_kaon_reconstruction_roundtrip
    (beamE epx epy epz ppx ppy ppz kpx kpy kpz kmx kmy kmz : ℝ)
    (hx : epx + ppx + kpx + kmx = 0)
    (hy : epy + ppy + kpy + kmy = 0)
    (hz : epz + ppz + kpz + kmz = beamE) :
    kMinus_miss_px beamE epx epy epz ppx ppy ppz kpx kpy kpz = kmx ∧
    kMinus_miss_py beamE epx epy epz ppx ppy ppz kpx kpy kpz = kmy ∧
    kMinus_miss_pz beamE epx epy epz ppx ppy ppz kpx kpy kpz = kmz ∧
    kPlus_miss_px beamE epx epy epz ppx ppy ppz kmx kmy kmz = kpx ∧
    kPlus_miss_py beamE epx epy epz ppx ppy ppz kmx kmy kmz = kpy ∧
    kPlus_miss_pz beamE epx epy epz ppx ppy ppz kmx kmy kmz = kpz := by
  refine ⟨?_, ?_, ?_, ?_, ?_, ?_⟩ <;>
    simp only [kMinus_miss_px, kMinus_miss_py, kMinus_miss_pz,
      kPlus_miss_px, kPlus_miss_py, kPlus_miss_pz,
      kMinusMissLV, kPlusMissLV, pBeam, pTarg, onShell,
      TLorentzVector.add_px, TLorentzVector.add_py, TLorentzVector.add_pz,
      TLorentzVector.sub_px, TLorentzVector.sub_py, TLorentzVector.sub_pz] <;>
    linarith

/-- Witness for `missing_kaon_reconstruction_roundtrip` at a concrete
synthetic event with beam energy 5. -/
theorem missing_kaon_reconstruction_roundtrip_witness :
    kMinus_miss_px 5 1 0 1 2 1 1 (-3) (-1) 1 = 0 ∧
    kMinus_miss_py 5 1 0 1 2 1 1 (-3) (-1) 1 = 0 ∧
    kMinus_miss_pz 5 1 0 1 2 1 1 (-3) (-1) 1 = 2 ∧
    kPlus_miss_px 5 1 0 1 2 1 1 0 0 2 = -3 ∧
    kPlus_miss_py 5 1 0 1 2 1 1 0 0 2 = -1 ∧
    kPlus_miss_pz 5 1 0 1 2 1 1 0 0 2 = 1 :=
  missing_kaon_reconstruction_roundtrip 5 1 0 1 2 1 1 (-3) (-1) 1 0 0 2
    (by norm_num) (by norm_num) (by norm_num)

/-- One entry of the parallel per-event arrays `REC_Particle_pid`,
`REC_Particle_px/py/pz`, `REC_Particle_pass`, `REC_DaughterParticle_pass`
and `REC_Particle_status` (momenta as exact rationals standing in for the
stored `float`s; the status `short` as an integer). -/
structure Particle where
  pid : Int
  px : ℚ
  py : ℚ
  pz : ℚ
  pass : Bool
  daughterPass : Bool
  status : Int
deriving DecidableEq

/-- First-match px selector: the `Define("..._px", ...)` lambda pattern
`for i: if (pid[i] == t && pass[i]) return px[i]; return -999.0f`. -/
def selectPx (t : Int) : List Particle → ℚ
  | [] => -999
  | q :: rest => if q.pid = t ∧ q.pass = true then q.px else selectPx t rest

/-- First-match py selector (same loop over the `py` array). -/
def selectPy (t : Int) : List Particle → ℚ
  | [] => -999
  | q :: rest => if q.pid = t ∧ q.pass = true then q.py else selectPy t rest

/-- First-match pz selector (same loop over the `pz` array). -/
def selectPz (t : Int) : List Particle → ℚ
  | [] => -999
  | q :: rest => if q.pid = t ∧ q.pass = true then q.pz else selectPz t rest

/-- The three-momentum returned by the per-species selection: the triple of
the three component selectors. -/
def selectMom (t : Int) (l : List Particle) : ℚ × ℚ × ℚ :=
  (selectPx t l, selectPy t l, selectPz t l)

/-- Matching predicate of the selector loops: species id equals the target
and the quality flag is set. -/
def matchesSpecies (t : Int) (q : Particle) : Bool := q.pid == t && q.pass

/-- First quality-passing particle of a species, in stored order. -/
def firstOfSpecies (t : Int) (l : List Particle) : Option Particle :=
  l.find? (matchesSpecies t)

theorem matchesSpecies_iff (t : Int) (q : Particle) :
    matchesSpecies t q = true ↔ (q.pid = t ∧ q.pass = true) := by
  simp [matchesSpecies]

theorem matchesSpecies_false {t : Int} {q : Particle}
    (h : ¬(q.pid = t ∧ q.pass = true)) : matchesSpecies t q = false := by
  rcases Bool.eq_false_or_eq_true (matchesSpecies t q) with ht | hf
  · exact absurd ((matchesSpecies_iff t q).1 ht) h
  · exact hf

theorem selectPx_eq_find (t : Int) (l : List Particle) :
    selectPx t l = match firstOfSpecies t l with
      | some q => q.px
      | none => -999 := by
  induction l with
  | nil => rfl
  | cons q rest ih =>
    by_cases h : q.pid = t ∧ q.pass = true
    · simp [selectPx, firstOfSpecies, List.find?, matchesSpecies, h.1, h.2]
    · simpa [selectPx, firstOfSpecies, List.find?, matchesSpecies_false h, h] using ih

theorem selectPy_eq_find (t : Int) (l : List Particle) :
    selectPy t l = match firstOfSpecies t l with
      | some q => q.py
      | none => -999 := by
  induction l with
  | nil => rfl
  | cons q rest ih =>
    by_cases h : q.pid = t ∧ q.pass = true
    · simp [selectPy, firstOfSpecies, List.find?, matchesSpecies, h.1, h.2]
    · simpa [selectPy, firstOfSpecies, List.find?, matchesSpecies_false h, h] using ih

theorem selectPz_eq_find (t : Int) (l : List Particle) :
    selectPz t l = match firstOfSpecies t l with
      | some q => q.pz
      | none => -999 := by
  induction l with
  | nil => rfl
  | cons q rest ih =>
    by_cases h : q.pid = t ∧ q.pass = true
    · simp [selectPz, firstOfSpecies, List.find?, matchesSpecies, h.1, h.2]
    · simpa [selectPz, firstOfSpecies, List.find?, matchesSpecies_false h, h] using ih

/-- C2: the selection returns the momentum components of the first particle
in stored order whose species id matches and whose quality flag is true,
and the sentinel triple (−999, −999, −999) when none matches; in
particular, for an event whose prefix has no matching particle and which
then contains two quality-passing candidates of the species, the selection
yields the components of the first of the two. -/
theorem select_first_match (t : Int) (l : List Particle) :
    (selectMom t l = match firstOfSpecies t l with
      | some q => (q.px, q.py, q.pz)
      | none => (-999, -999, -999)) ∧
    (∀ pre q₁ mid q₂ post, l = pre ++ (q₁ :: (mid ++ (q₂ :: post))) →
      (∀ r ∈ pre, ¬(r.pid = t ∧ r.pass = true)) →
      q₁.pid = t → q₁.pass = true → q₂.pid = t → q₂.pass = true →
      selectMom t l = (q₁.px, q₁.py, q₁.pz)) := by
  constructor
  · have hx := selectPx_eq_find t l
    have hy := selectPy_eq_find t l
    have hz := selectPz_eq_find t l
    cases hf : firstOfSpecies t l <;>
      simp_all [selectMom]
  · rintro pre q₁ mid q₂ post rfl hpre hq₁ hq₁p _ _
    have hfind : firstOfSpecies t (pre ++ (q₁ :: (mid ++ (q₂ :: post)))) = some q₁ := by
      unfold firstOfSpecies
      rw [List.find?_append]
      have hnone : List.find? (matchesSpecies t) pre = none := by
        rw [List.find?_eq_none]
        intro r hr
        have hmr := matchesSpecies_false (hpre r hr)
        simp [hmr]
      rw [hnone]
      simp [List.find?, matchesSpecies, hq₁, hq₁p]
    have hx := selectPx_eq_find t (pre ++ (q₁ :: (mid ++ (q₂ :: post))))
    have hy := selectPy_eq_find t (pre ++ (q₁ :: (mid ++ (q₂ :: post))))
    have hz := selectPz_eq_find t (pre ++ (q₁ :: (mid ++ (q₂ :: post))))
    rw [hfind] at hx hy hz
    simp [selectMom, hx, hy, hz]

/-- Witness for `select_first_match`: an event with two quality-passing K⁺
candidates yields the first one's components. -/
theorem select_first_match_witness :
    selectMom 321 [⟨11, 1, 1, 1, true, false, 0⟩, ⟨321, 2, 3, 4, true, false, 0⟩,
        ⟨321, 5, 6, 7, true, false, 0⟩] = (2, 3, 4) :=
  (select_first_match 321 _).2 [⟨11, 1, 1, 1, true, false, 0⟩]
    ⟨321, 2, 3, 4, true, false, 0⟩ [] ⟨321, 5, 6, 7, true, false, 0⟩ []
    rfl (by decide) rfl rfl rfl rfl

/-- Number of quality-passing particles of a species in the event. -/
def countPass (t : Int) (l : List Particle) : Nat :=
  l.countP (matchesSpecies t)

/-- Loop body of the `SelectExclusivePhiEvent` filter lambda: counters
`e`, `kp`, `km`, `p` start at 0 and `hasPhiDaughter` starts `true`; a
particle failing `pass` is skipped, otherwise the counter of its species
is bumped. In the `321` and `-321` branches the source executes
`hasPhiDaughter = hasPhiDaughter` (the `|| daughterPass[i]` clause is
commented out), an identity assignment, so the flag is passed through
unchanged. The final verdict is
`e == 1 && kp >= 1 && km >= 1 && p >= 1 && hasPhiDaughter`. -/
def phiLoop : List Particle → Nat → Nat → Nat → Nat → Bool → Bool
  | [], e, kp, km, p, hasPhiDaughter =>
      decide (e = 1) && decide (1 ≤ kp) && decide (1 ≤ km) && decide (1 ≤ p) &&
        hasPhiDaughter
  | q :: rest, e, kp, km, p, hasPhiDaughter =>
      if q.pass = false then phiLoop rest e kp km p hasPhiDaughter
      else if q.pid = 11 then phiLoop rest (e + 1) kp km p hasPhiDaughter
      else if q.pid = 321 then phiLoop rest e (kp + 1) km p hasPhiDaughter
      else if q.pid = -321 then phiLoop rest e kp (km + 1) p hasPhiDaughter
      else if q.pid = 2212 then phiLoop rest e kp km (p + 1) hasPhiDaughter
      else phiLoop rest e kp km p hasPhiDaughter

/-- The filter predicate of `SelectExclusivePhiEvent`. -/
def SelectExclusivePhiEvent (l : List Particle) : Bool :=
  phiLoop l 0 0 0 0 true

theorem phiLoop_true_iff :
    ∀ (l : List Particle) (e kp km p : Nat) (b : Bool),
      phiLoop l e kp km p b = true ↔
        (e + countPass 11 l = 1 ∧ 1 ≤ kp + countPass 321 l ∧
         1 ≤ km + countPass (-321) l ∧ 1 ≤ p + countPass 2212 l ∧ b = true) := by
  intro l
  induction l with
  | nil =>
    intro e kp km p b
    cases b <;> simp [phiLoop, countPass] <;> tauto
  | cons q rest ih =>
    intro e kp km p b
    by_cases hpass : q.pass = true
    · by_cases h11 : q.pid = 11
      · cases b <;>
          simp [phiLoop, hpass, h11, ih, countPass, List.countP_cons, matchesSpecies] <;>
          omega
      · by_cases h321 : q.pid = 321
        · cases b <;>
            simp [phiLoop, hpass, h11, h321, ih, countPass, List.countP_cons,
              matchesSpecies] <;>
            omega
        · by_cases hm321 : q.pid = -321
          · cases b <;>
              simp [phiLoop, hpass, h11, h321, hm321, ih, countPass, List.countP_cons,
                matchesSpecies] <;>
              omega
          · by_cases h2212 : q.pid = 2212
            · cases b <;>
                simp [phiLoop, hpass, h11, h321, hm321, h2212, ih, countPass,
                  List.countP_cons, matchesSpecies] <;>
                omega
            · cases b <;>
                simp [phiLoop, hpass, h11, h321, hm321, h2212, ih, countPass,
                  List.countP_cons, matchesSpecies]
    · have hp : q.pass = false := by
        rcases Bool.eq_false_or_eq_true q.pass with ht | hf
        · exact absurd ht hpass
        · exact hf
      cases b <;>
        simp [phiLoop, hp, ih, countPass, List.countP_cons, matchesSpecies]

theorem phiLoop_map_daughter (f : Particle → Bool) :
    ∀ (l : List Particle) (e kp km p : Nat) (b : Bool),
      phiLoop (l.map fun q => { q with daughterPass := f q }) e kp km p b =
        phiLoop l e kp km p b := by
  intro l
  induction l with
  | nil => intro e kp km p b; rfl
  | cons q rest ih =>
    intro e kp km p b
    simp only [List.map_cons, phiLoop]
    split_ifs <;> apply ih

/-- C3: the exclusive-φ predicate accepts exactly the events with one
quality-passing electron, at least one K⁺, at least one K⁻ and at least
one proton; and because the daughter-flag clause is commented out, the
verdict is unchanged under any rewriting of the daughter flags. -/
theorem selectExclusivePhi_counts_and_daughter_independent (l : List Particle) :
    (SelectExclusivePhiEvent l = true ↔
      (countPass 11 l = 1 ∧ 1 ≤ countPass 321 l ∧ 1 ≤ countPass (-321) l ∧
        1 ≤ countPass 2212 l)) ∧
    (∀ f : Particle → Bool,
      SelectExclusivePhiEvent (l.map fun q => { q with daughterPass := f q }) =
        SelectExclusivePhiEvent l) := by
  constructor
  · rw [SelectExclusivePhiEvent, phiLoop_true_iff]
    simp
  · intro f
    exact phiLoop_map_daughter f l 0 0 0 0 true

theorem bool_eq_false {b : Bool} (h : ¬b = true) : b = false := by
  cases b
  · rfl
  · exact absurd rfl h

/-- Loop body of the `RejectPi0TwoPhoton` filter lambda: particles failing
`pass` are skipped; a quality-passing particle whose daughter flag is set
makes the lambda return `false` immediately; otherwise electrons, photons
and protons are counted and the verdict is `e == 1 && g == 1 && p == 1`. -/
def pi0Loop : List Particle → Nat → Nat → Nat → Bool
  | [], e, g, p => decide (e = 1) && decide (g = 1) && decide (p = 1)
  | q :: rest, e, g, p =>
      if q.pass = false then pi0Loop rest e g p
      else if q.daughterPass = true then false
      else if q.pid = 11 then pi0Loop rest (e + 1) g p
      else if q.pid = 22 then pi0Loop rest e (g + 1) p
      else if q.pid = 2212 then pi0Loop rest e g (p + 1)
      else pi0Loop rest e g p

/-- The filter predicate of `RejectPi0TwoPhoton`. -/
def RejectPi0TwoPhoton (l : List Particle) : Bool :=
  pi0Loop l 0 0 0

theorem pi0Loop_false_of_daughter :
    ∀ (l : List Particle) (e g p : Nat),
      (∃ q ∈ l, q.pass = true ∧ q.daughterPass = true) → pi0Loop l e g p = false := by
  intro l
  induction l with
  | nil =>
    intro e g p h
    simp at h
  | cons q rest ih =>
    intro e g p h
    rcases h with ⟨r, hr, hrpass, hrd⟩
    rcases List.mem_cons.mp hr with rfl | hmem
    · simp [pi0Loop, hrpass, hrd]
    · by_cases hpass : q.pass = true
      · by_cases hd : q.daughterPass = true
        · simp [pi0Loop, hpass, hd]
        · have hd' := bool_eq_false hd
          have hrec := fun e g p => ih e g p ⟨r, hmem, hrpass, hrd⟩
          simp only [pi0Loop, hpass, hd']
          split_ifs <;> apply hrec
      · have hp := bool_eq_false hpass
        simp only [pi0Loop, hp, if_pos rfl]
        exact ih e g p ⟨r, hmem, hrpass, hrd⟩

theorem pi0Loop_true_iff :
    ∀ (l : List Particle) (e g p : Nat),
      (∀ q ∈ l, q.pass = true → q.daughterPass = false) →
      (pi0Loop l e g p = true ↔
        (e + countPass 11 l = 1 ∧ g + countPass 22 l = 1 ∧
         p + countPass 2212 l = 1)) := by
  intro l
  induction l with
  | nil =>
    intro e g p _
    simp [pi0Loop, countPass]
    tauto
  | cons q rest ih =>
    intro e g p hnd
    have hrest : ∀ r ∈ rest, r.pass = true → r.daughterPass = false :=
      fun r hr => hnd r (List.mem_cons_of_mem q hr)
    have ih' := fun e g p => ih e g p hrest
    by_cases hpass : q.pass = true
    · have hd : q.daughterPass = false := hnd q (List.mem_cons_self q rest) hpass
      by_cases h11 : q.pid = 11
      · simp [pi0Loop, hpass, hd, h11, ih', countPass, List.countP_cons, matchesSpecies]
        omega
      · by_cases h22 : q.pid = 22
        · simp [pi0Loop, hpass, hd, h11, h22, ih', countPass, List.countP_cons,
            matchesSpecies]
          omega
        · by_cases h2212 : q.pid = 2212
          · simp [pi0Loop, hpass, hd, h11, h22, h2212, ih', countPass,
              List.countP_cons, matchesSpecies]
            omega
          · simp [pi0Loop, hpass, hd, h11, h22, h2212, ih', countPass,
              List.countP_cons, matchesSpecies]
    · have hp := bool_eq_false hpass
      simp [pi0Loop, hp, ih', countPass, List.countP_cons, matchesSpecies]

/-- C7: the π⁰-background-rejection predicate returns false whenever some
quality-passing particle carries the daughter flag; otherwise it accepts
exactly the events with one quality-passing electron, one photon and one
proton. -/
theorem rejectPi0_characterization (l : List Particle) :
    ((∃ q ∈ l, q.pass = true ∧ q.daughterPass = true) →
      RejectPi0TwoPhoton l = false) ∧
    ((∀ q ∈ l, q.pass = true → q.daughterPass = false) →
      (RejectPi0TwoPhoton l = true ↔
        (countPass 11 l = 1 ∧ countPass 22 l = 1 ∧ countPass 2212 l = 1))) := by
  constructor
  · exact pi0Loop_false_of_daughter l 0 0 0
  · intro hnd
    simpa using pi0Loop_true_iff l 0 0 0 hnd

/-- Witness for `rejectPi0_characterization` at two concrete events: one
with a flagged daughter particle (rejected) and one clean e/γ/p event
(accepted). -/
theorem rejectPi0_characterization_witness :
    RejectPi0TwoPhoton [⟨11, 0, 0, 0, true, true, 0⟩] = false ∧
    RejectPi0TwoPhoton [⟨11, 0, 0, 0, true, false, 0⟩, ⟨22, 0, 0, 0, true, false, 0⟩,
      ⟨2212, 0, 0, 0, true, false, 0⟩] = true :=
  ⟨(rejectPi0_characterization [⟨11, 0, 0, 0, true, true, 0⟩]).1
      ⟨⟨11, 0, 0, 0, true, true, 0⟩, by simp, rfl, rfl⟩,
   ((rejectPi0_characterization [⟨11, 0, 0, 0, true, false, 0⟩,
        ⟨22, 0, 0, 0, true, false, 0⟩, ⟨2212, 0, 0, 0, true, false, 0⟩]).2
      (by decide)).mpr (by decide)⟩

/-- Filter of the all-detected pipeline `InitKinematics`:
`ex != -999 && kMinusx != -999 && kPlusx != -999 && px != -999`, applied to
the selected px components of electron, K⁻, K⁺ and proton. -/
def allDetectedFilter (l : List Particle) : Bool :=
  decide (selectPx 11 l ≠ -999) && decide (selectPx (-321) l ≠ -999) &&
    decide (selectPx 321 l ≠ -999) && decide (selectPx 2212 l ≠ -999)

/-- The species' selection is sentinel-valued in its px component: either
no quality-passing candidate exists, or the first one has px = −999. -/
def speciesPxSentinel (t : Int) (l : List Particle) : Prop :=
  ∀ q, firstOfSpecies t l = some q → q.px = -999

theorem selectPx_sentinel_iff (t : Int) (l : List Particle) :
    selectPx t l = -999 ↔ speciesPxSentinel t l := by
  rw [selectPx_eq_find]
  cases hf : firstOfSpecies t l with
  | none => simp [speciesPxSentinel, hf]
  | some q => simp [speciesPxSentinel, hf]

/-- C6 (amended): the all-detected filter rejects an event exactly when,
for one of the four species, the px-selection returns −999 — that is, the
species has no quality-passing candidate or its first candidate has
px = −999. -/
theorem allDetected_filter_rejects_iff (l : List Particle) :
    allDetectedFilter l = false ↔
      (speciesPxSentinel 11 l ∨ speciesPxSentinel (-321) l ∨
        speciesPxSentinel 321 l ∨ speciesPxSentinel 2212 l) := by
  simp [allDetectedFilter, Bool.and_eq_false_iff, decide_eq_false_iff_not, not_not,
    selectPx_sentinel_iff]
  tauto

/-- C6 (counterexample): an event in which every species has a
quality-passing candidate — no selection returns the NOT_FOUND triple
(−999, −999, −999) — but the electron's px happens to be exactly −999, so
the filter nevertheless rejects it. -/
theorem allDetected_filter_counterexample :
    (firstOfSpecies 11 [⟨11, -999, 0, 0, true, false, 2000⟩,
        ⟨-321, 1, 1, 1, true, false, 2000⟩, ⟨321, 1, 1, 1, true, false, 2000⟩,
        ⟨2212, 1, 1, 1, true, false, 2000⟩]).isSome = true ∧
    (firstOfSpecies (-321) [⟨11, -999, 0, 0, true, false, 2000⟩,
        ⟨-321, 1, 1, 1, true, false, 2000⟩, ⟨321, 1, 1, 1, true, false, 2000⟩,
        ⟨2212, 1, 1, 1, true, false, 2000⟩]).isSome = true ∧
    (firstOfSpecies 321 [⟨11, -999, 0, 0, true, false, 2000⟩,
        ⟨-321, 1, 1, 1, true, false, 2000⟩, ⟨321, 1, 1, 1, true, false, 2000⟩,
        ⟨2212, 1, 1, 1, true, false, 2000⟩]).isSome = true ∧
    (firstOfSpecies 2212 [⟨11, -999, 0, 0, true, false, 2000⟩,
        ⟨-321, 1, 1, 1, true, false, 2000⟩, ⟨321, 1, 1, 1, true, false, 2000⟩,
        ⟨2212, 1, 1, 1, true, false, 2000⟩]).isSome = true ∧
    selectMom 11 [⟨11, -999, 0, 0, true, false, 2000⟩,
        ⟨-321, 1, 1, 1, true, false, 2000⟩, ⟨321, 1, 1, 1, true, false, 2000⟩,
        ⟨2212, 1, 1, 1, true, false, 2000⟩] ≠ (-999, -999, -999) ∧
    allDetectedFilter [⟨11, -999, 0, 0, true, false, 2000⟩,
        ⟨-321, 1, 1, 1, true, false, 2000⟩, ⟨321, 1, 1, 1, true, false, 2000⟩,
        ⟨2212, 1, 1, 1, true, false, 2000⟩] = false := by
  decide

/-- Detector-region classification of a status code, as in the four
`*_det_region` lambdas of `InitKinematics`: `abs_status = std::abs(status)`
then the range chain FT/FD/CD/unknown. -/
def statusRegion (s : Int) : Int :=
  if 1000 ≤ |s| ∧ |s| < 2000 then 0
  else if 2000 ≤ |s| ∧ |s| < 3000 then 1
  else if 4000 ≤ |s| ∧ |s| < 5000 then 2
  else -1

/-- Loop of the `*_det_region` lambdas: the first quality-passing particle
of the species determines the region; with no such particle the lambda
falls through to −1. -/
def detRegionLoop (t : Int) : List Particle → Int
  | [] => -1
  | q :: rest =>
      if q.pid = t ∧ q.pass = true then statusRegion q.status else detRegionLoop t rest

/-- Column `ele_det_region` of `InitKinematics`. -/
def ele_det_region (l : List Particle) : Int := detRegionLoop 11 l

/-- Column `kMinus_det_region` of `InitKinematics`. -/
def kMinus_det_region (l : List Particle) : Int := detRegionLoop (-321) l

/-- Column `kPlus_det_region` of `InitKinematics`. -/
def kPlus_det_region (l : List Particle) : Int := detRegionLoop 321 l

/-- Column `pro_det_region` of `InitKinematics`. -/
def pro_det_region (l : List Particle) : Int := detRegionLoop 2212 l

theorem detRegionLoop_eq_find (t : Int) (l : List Particle) :
    detRegionLoop t l = match firstOfSpecies t l with
      | some q => statusRegion q.status
      | none => -1 := by
  induction l with
  | nil => rfl
  | cons q rest ih =>
    by_cases h : q.pid = t ∧ q.pass = true
    · simp [detRegionLoop, firstOfSpecies, List.find?, matchesSpecies, h.1, h.2]
    · simpa [detRegionLoop, firstOfSpecies, List.find?, matchesSpecies_false h, h]
        using ih

/-- C8: each of the four detector-region columns classifies the first
quality-passing particle of its species (−1 when there is none), and the
classification maps |status| in [1000, 2000) to 0 (forward-tagger),
[2000, 3000) to 1 (forward-detector), [4000, 5000) to 2
(central-detector), and every other value — including [3000, 4000) —
to −1. -/
theorem det_region_characterization (l : List Particle) (s : Int) :
    (ele_det_region l = match firstOfSpecies 11 l with
      | some q => statusRegion q.status
      | none => -1) ∧
    (kMinus_det_region l = match firstOfSpecies (-321) l with
      | some q => statusRegion q.status
      | none => -1) ∧
    (kPlus_det_region l = match firstOfSpecies 321 l with
      | some q => statusRegion q.status
      | none => -1) ∧
    (pro_det_region l = match firstOfSpecies 2212 l with
      | some q => statusRegion q.status
      | none => -1) ∧
    ((1000 ≤ |s| ∧ |s| < 2000) → statusRegion s = 0) ∧
    ((2000 ≤ |s| ∧ |s| < 3000) → statusRegion s = 1) ∧
    ((4000 ≤ |s| ∧ |s| < 5000) → statusRegion s = 2) ∧
    (¬((1000 ≤ |s| ∧ |s| < 2000) ∨ (2000 ≤ |s| ∧ |s| < 3000) ∨
        (4000 ≤ |s| ∧ |s| < 5000)) → statusRegion s = -1) := by
  refine ⟨detRegionLoop_eq_find 11 l, detRegionLoop_eq_find (-321) l,
    detRegionLoop_eq_find 321 l, detRegionLoop_eq_find 2212 l, ?_, ?_, ?_, ?_⟩ <;>
    intro h <;>
    unfold statusRegion <;>
    split_ifs <;>
    omega

/-- Witness for `det_region_characterization`, instantiating the range
implications at |status| = 1500, 2100 (from a negative status code), 4500
and 3500. -/
theorem det_region_characterization_witness :
    statusRegion 1500 = 0 ∧ statusRegion (-2100) = 1 ∧ statusRegion 4500 = 2 ∧
      statusRegion 3500 = -1 :=
  ⟨(det_region_characterization [] 1500).2.2.2.2.1 (by norm_num),
   (det_region_characterization [] (-2100)).2.2.2.2.2.1 (by norm_num),
   (det_region_characterization [] 4500).2.2.2.2.2.2.1 (by norm_num),
   (det_region_characterization [] 3500).2.2.2.2.2.2.2 (by norm_num)⟩

/-- Column `Mx2_epKm_forCut` of `InitKinematics_MissingKp`: verbatim alias
of the `Mx2_epKm` observable (`[](double v) { return v; }`). -/
def Mx2_epKm_forCut (v : ℝ) : ℝ := v

/-- Column `Mx_epKm_forCut` of `InitKinematics_MissingKp`:
`(v > 0) ? std::sqrt(v) : -999.0` applied to `Mx2_epKm_forCut`. -/
noncomputable def Mx_epKm_forCut (v : ℝ) : ℝ :=
  if v > 0 then Real.sqrt v else -999

/-- C4 (counterexample): at `Mx2_epKm = 0` the claim's second half fails —
0 is greater than or equal to zero, yet the alias is −999, not √0 = 0,
because the source tests `v > 0` strictly. -/
theorem mx_alias_zero_counterexample :
    (0:ℝ) ≥ 0 ∧ Mx_epKm_forCut (Mx2_epKm_forCut 0) ≠ Real.sqrt 0 := by
  constructor
  · norm_num
  · rw [Mx2_epKm_forCut, Mx_epKm_forCut, if_neg (lt_irrefl (0:ℝ)), Real.sqrt_zero]
    norm_num

/-- C4 (amended): if `Mx2_epKm` is less than or equal to zero the
square-root alias equals −999.0, and if it is strictly positive the alias
equals the square root of `Mx2_epKm`. -/
theorem mx_alias_consistency (v : ℝ) :
    (v ≤ 0 → Mx_epKm_forCut (Mx2_epKm_forCut v) = -999) ∧
    (0 < v → Mx_epKm_forCut (Mx2_epKm_forCut v) = Real.sqrt v) := by
  constructor
  · intro h
    rw [Mx2_epKm_forCut, Mx_epKm_forCut, if_neg (not_lt.mpr h)]
  · intro h
    rw [Mx2_epKm_forCut, Mx_epKm_forCut, if_pos h]

/-- Witness for `mx_alias_consistency` at −1 (sentinel branch) and 4
(square-root branch). -/
theorem mx_alias_consistency_witness :
    Mx_epKm_forCut (Mx2_epKm_forCut (-1)) = -999 ∧
    Mx_epKm_forCut (Mx2_epKm_forCut 4) = Real.sqrt 4 :=
  ⟨(mx_alias_consistency (-1)).1 (by norm_num),
   (mx_alias_consistency 4).2 (by norm_num)⟩

/-- Mathematical value of `std::atan2(y, x)` (C99 semantics on the reals;
signed zeros do not exist here): the angle of the point (x, y), in
(−π, π]. -/
noncomputable def atan2 (y x : ℝ) : ℝ :=
  if 0 < x then Real.arctan (y / x)
  else if x < 0 then
    (if 0 ≤ y then Real.arctan (y / x) + Real.pi else Real.arctan (y / x) - Real.pi)
  else if 0 < y then Real.pi / 2
  else if y < 0 then -(Real.pi / 2)
  else 0

/-- Helper `PhiFunc` of the source: `std::atan2(py, px)`, shifted by 2π
when negative. -/
noncomputable def PhiFunc (px py : ℝ) : ℝ :=
  if atan2 py px < 0 then atan2 py px + 2 * Real.pi else atan2 py px

theorem atan2_bounds (y x : ℝ) : -Real.pi < atan2 y x ∧ atan2 y x ≤ Real.pi := by
  have hπ := Real.pi_pos
  have ha1 := Real.arctan_lt_pi_div_two (y / x)
  have ha2 := Real.neg_pi_div_two_lt_arctan (y / x)
  unfold atan2
  split_ifs with hx hx' hy hy' hy''
  · constructor <;> linarith
  · have h1 : Real.arctan (y / x) ≤ 0 := by
      have hyx : y / x ≤ 0 := div_nonpos_iff.mpr (Or.inl ⟨hy, le_of_lt hx'⟩)
      calc Real.arctan (y / x) ≤ Real.arctan 0 :=
            Real.arctan_strictMono.monotone hyx
        _ = 0 := Real.arctan_zero
    constructor <;> linarith
  · have h1 : 0 < Real.arctan (y / x) := by
      have hyx : 0 < y / x := div_pos_iff.mpr (Or.inr ⟨not_le.mp hy, hx'⟩)
      calc (0:ℝ) = Real.arctan 0 := Real.arctan_zero.symm
        _ < Real.arctan (y / x) := Real.arctan_strictMono hyx
    constructor <;> linarith
  · constructor <;> linarith
  · constructor <;> linarith
  · constructor <;> linarith

/-- C5: `PhiFunc` always lands in [0, 2π); `PhiFunc(1, −1)` is 7π/4,
`PhiFunc(1, 1)` is π/4, and the two differ by π/2 modulo 2π. -/
theorem phiFunc_range_and_quarter_turn (px py : ℝ) :
    (0 ≤ PhiFunc px py ∧ PhiFunc px py < 2 * Real.pi) ∧
    PhiFunc 1 (-1) = 7 * Real.pi / 4 ∧
    PhiFunc 1 1 = Real.pi / 4 ∧
    PhiFunc 1 (-1) + Real.pi / 2 = PhiFunc 1 1 + 2 * Real.pi := by
  have hπ := Real.pi_pos
  have hneg : atan2 (-1) 1 = -(Real.pi / 4) := by
    rw [atan2, if_pos one_pos, show (-1:ℝ) / 1 = -1 by norm_num,
      show (-1:ℝ) = -(1:ℝ) by norm_num, Real.arctan_neg, Real.arctan_one]
  have hpos : atan2 1 1 = Real.pi / 4 := by
    rw [atan2, if_pos one_pos, show (1:ℝ) / 1 = 1 by norm_num, Real.arctan_one]
  have hv1 : PhiFunc 1 (-1) = 7 * Real.pi / 4 := by
    rw [PhiFunc, hneg, if_pos (by linarith)]
    ring
  have hv2 : PhiFunc 1 1 = Real.pi / 4 := by
    rw [PhiFunc, hpos, if_neg (by linarith)]
  refine ⟨?_, hv1, hv2, ?_⟩
  · obtain ⟨hb1, hb2⟩ := atan2_bounds py px
    rw [PhiFunc]
    split_ifs with h
    · constructor <;> linarith
    · constructor <;> linarith
  · rw [hv1, hv2]
    ring

/-- Argument of the square root in the `invMass_KpKm` lambda of
`InitKinematics`: `E*E - (px*px + py*py + pz*pz)` for the summed kaon
pair, with each kaon energy on-shell at the kaon mass. -/
noncomputable def invMassSqArg (px1 py1 pz1 px2 py2 pz2 : ℝ) : ℝ :=
  (Real.sqrt (px1 * px1 + py1 * py1 + pz1 * pz1 + kMK * kMK) +
      Real.sqrt (px2 * px2 + py2 * py2 + pz2 * pz2 + kMK * kMK)) *
    (Real.sqrt (px1 * px1 + py1 * py1 + pz1 * pz1 + kMK * kMK) +
      Real.sqrt (px2 * px2 + py2 * py2 + pz2 * pz2 + kMK * kMK)) -
  ((px1 + px2) * (px1 + px2) + (py1 + py2) * (py1 + py2) +
    (pz1 + pz2) * (pz1 + pz2))

/-- Column `invMass_KpKm` of `InitKinematics`. -/
noncomputable def invMass_KpKm (px1 py1 pz1 px2 py2 pz2 : ℝ) : ℝ :=
  Real.sqrt (invMassSqArg px1 py1 pz1 px2 py2 pz2)

/-- C9: the argument of the square root in `invMass_KpKm` is nonnegative
for every real input — each on-shell energy dominates its momentum, and
Cauchy-Schwarz bounds the cross term — so the invariant mass is a genuine
square root of the argument (its square recovers the argument) on all
inputs, sentinels included. -/
theorem invMass_KpKm_arg_nonneg (px1 py1 pz1 px2 py2 pz2 : ℝ) :
    0 ≤ invMassSqArg px1 py1 pz1 px2 py2 pz2 ∧
    invMass_KpKm px1 py1 pz1 px2 py2 pz2 * invMass_KpKm px1 py1 pz1 px2 py2 pz2 =
      invMassSqArg px1 py1 pz1 px2 py2 pz2 := by
  have hm : (0:ℝ) ≤ kMK * kMK := mul_self_nonneg kMK
  have hs1 : (0:ℝ) ≤ px1 * px1 + py1 * py1 + pz1 * pz1 + kMK * kMK := by
    nlinarith [mul_self_nonneg px1, mul_self_nonneg py1, mul_self_nonneg pz1]
  have hs2 : (0:ℝ) ≤ px2 * px2 + py2 * py2 + pz2 * pz2 + kMK * kMK := by
    nlinarith [mul_self_nonneg px2, mul_self_nonneg py2, mul_self_nonneg pz2]
  have hE1 : (0:ℝ) ≤ Real.sqrt (px1 * px1 + py1 * py1 + pz1 * pz1 + kMK * kMK) :=
    Real.sqrt_nonneg _
  have hE2 : (0:ℝ) ≤ Real.sqrt (px2 * px2 + py2 * py2 + pz2 * pz2 + kMK * kMK) :=
    Real.sqrt_nonneg _
  have hE1sq := Real.mul_self_sqrt hs1
  have hE2sq := Real.mul_self_sqrt hs2
  have hcs : (px1 * px2 + py1 * py2 + pz1 * pz2) ^ 2 ≤
      (px1 * px1 + py1 * py1 + pz1 * pz1) * (px2 * px2 + py2 * py2 + pz2 * pz2) := by
    nlinarith [sq_nonneg (px1 * py2 - py1 * px2), sq_nonneg (px1 * pz2 - pz1 * px2),
      sq_nonneg (py1 * pz2 - pz1 * py2)]
  have hsq : (px1 * px2 + py1 * py2 + pz1 * pz2) ^ 2 ≤
      (Real.sqrt (px1 * px1 + py1 * py1 + pz1 * pz1 + kMK * kMK) *
        Real.sqrt (px2 * px2 + py2 * py2 + pz2 * pz2 + kMK * kMK)) ^ 2 := by
    have hexp : (Real.sqrt (px1 * px1 + py1 * py1 + pz1 * pz1 + kMK * kMK) *
        Real.sqrt (px2 * px2 + py2 * py2 + pz2 * pz2 + kMK * kMK)) ^ 2 =
        (px1 * px1 + py1 * py1 + pz1 * pz1 + kMK * kMK) *
        (px2 * px2 + py2 * py2 + pz2 * pz2 + kMK * kMK) := by
      rw [mul_pow, sq, sq, hE1sq, hE2sq]
    rw [hexp]
    nlinarith [hcs, hm, mul_self_nonneg px1, mul_self_nonneg py1, mul_self_nonneg pz1,
      mul_self_nonneg px2, mul_self_nonneg py2, mul_self_nonneg pz2]
  have hdot : px1 * px2 + py1 * py2 + pz1 * pz2 ≤
      Real.sqrt (px1 * px1 + py1 * py1 + pz1 * pz1 + kMK * kMK) *
        Real.sqrt (px2 * px2 + py2 * py2 + pz2 * pz2 + kMK * kMK) := by
    have h1 := Real.sqrt_le_sqrt hsq
    rw [Real.sqrt_sq_eq_abs, Real.sqrt_sq_eq_abs] at h1
    calc px1 * px2 + py1 * py2 + pz1 * pz2 ≤ |px1 * px2 + py1 * py2 + pz1 * pz2| :=
          le_abs_self _
      _ ≤ |Real.sqrt (px1 * px1 + py1 * py1 + pz1 * pz1 + kMK * kMK) *
            Real.sqrt (px2 * px2 + py2 * py2 + pz2 * pz2 + kMK * kMK)| := h1
      _ = _ := abs_of_nonneg (mul_nonneg hE1 hE2)
  have harg : 0 ≤ invMassSqArg px1 py1 pz1 px2 py2 pz2 := by
    rw [invMassSqArg]
    nlinarith [hE1sq, hE2sq, hdot, hm]
  exact ⟨harg, Real.mul_self_sqrt harg⟩

/-- Helper `MomentumFunc` of the source:
`std::sqrt(px*px + py*py + pz*pz)`. -/
noncomputable def MomentumFunc (px py pz : ℝ) : ℝ :=
  Real.sqrt (px * px + py * py + pz * pz)

/-- Helper `ThetaFunc` of the source:
`std::acos(pz / std::sqrt(px*px + py*py + pz*pz))`. -/
noncomputable def ThetaFunc (px py pz : ℝ) : ℝ :=
  Real.arccos (pz / Real.sqrt (px * px + py * py + pz * pz))

/-- C10: for every nonzero three-momentum the divisor of `ThetaFunc` is
strictly positive and the `acos` argument lies in [−1, 1]; at the zero
three-momentum the divisor is zero (a division without meaning in the
source's arithmetic); the sentinel triple (−999, −999, −999) is nonzero
and its angle lies in the finite range [0, π]. -/
theorem thetaFunc_well_defined (px py pz : ℝ) :
    (¬(px = 0 ∧ py = 0 ∧ pz = 0) →
      (0 < Real.sqrt (px * px + py * py + pz * pz) ∧
        -1 ≤ pz / Real.sqrt (px * px + py * py + pz * pz) ∧
        pz / Real.sqrt (px * px + py * py + pz * pz) ≤ 1)) ∧
    Real.sqrt ((0:ℝ) * 0 + 0 * 0 + 0 * 0) = 0 ∧
    ¬((-999:ℝ) = 0 ∧ (-999:ℝ) = 0 ∧ (-999:ℝ) = 0) ∧
    (0 ≤ ThetaFunc (-999) (-999) (-999) ∧ ThetaFunc (-999) (-999) (-999) ≤ Real.pi) := by
  refine ⟨?_, ?_, by norm_num, Real.arccos_nonneg _, Real.arccos_le_pi _⟩
  · intro h
    have h1 : 0 ≤ px * px := mul_self_nonneg px
    have h2 : 0 ≤ py * py := mul_self_nonneg py
    have h3 : 0 ≤ pz * pz := mul_self_nonneg pz
    have hsum : 0 < px * px + py * py + pz * pz := by
      by_contra hc
      push_neg at hc
      have hx0 : px * px = 0 := by nlinarith
      have hy0 : py * py = 0 := by nlinarith
      have hz0 : pz * pz = 0 := by nlinarith
      exact h ⟨mul_self_eq_zero.mp hx0, mul_self_eq_zero.mp hy0,
        mul_self_eq_zero.mp hz0⟩
    have hs : 0 < Real.sqrt (px * px + py * py + pz * pz) := Real.sqrt_pos.mpr hsum
    have habs : |pz| ≤ Real.sqrt (px * px + py * py + pz * pz) := by
      have h1 : pz * pz ≤ px * px + py * py + pz * pz := by
        nlinarith [mul_self_nonneg px, mul_self_nonneg py]
      have h2 := Real.sqrt_le_sqrt h1
      rwa [Real.sqrt_mul_self_eq_abs] at h2
    refine ⟨hs, ?_, ?_⟩
    · rw [le_div_iff₀ hs]
      have := neg_abs_le pz
      linarith
    · rw [div_le_one hs]
      exact le_trans (le_abs_self pz) habs
  · rw [show (0:ℝ) * 0 + 0 * 0 + 0 * 0 = 0 by norm_num]
    exact Real.sqrt_zero

/-- Witness for `thetaFunc_well_defined` at the nonzero momentum (0, 0, 1). -/
theorem thetaFunc_well_defined_witness :
    0 < Real.sqrt ((0:ℝ) * 0 + 0 * 0 + 1 * 1) ∧
    -1 ≤ (1:ℝ) / Real.sqrt ((0:ℝ) * 0 + 0 * 0 + 1 * 1) ∧
    (1:ℝ) / Real.sqrt ((0:ℝ) * 0 + 0 * 0 + 1 * 1) ≤ 1 :=
  (thetaFunc_well_defined 0 0 1).1 (by norm_num)

end DISANAMM
